import Mathlib

/- Verification of the task repository and query/sort/classification engine of the
   to-do-manager web application (a Vue 3 + TypeScript client-side app persisting
   tasks to browser localStorage).

   Shallow embedding conventions used throughout this development:
   * Timestamps are milliseconds since the Unix epoch, modeled as `Int`
     (JavaScript `Date.getTime()` values are exact integers in this range).
     The model clock runs in a fixed time zone with offset 0, so the
     midnight normalization `setHours(0,0,0,0)` is flooring to a multiple of
     86400000 ms and `toDateString()` equality is equality of epoch-day indices
     (calendar dates (year, month, day) are in bijection with epoch-day indices).
   * The serialized form stored under the localStorage key `tasks` is modeled at
     the JSON-value level by the inductive `Json`. `JSON.parse` of a stored
     string yields either a `Json` value or a SyntaxError; the inductive
     `Stored` keeps exactly the cases the source distinguishes: key absent,
     key holding the empty string (falsy in the `if (tasks)` guard), a string
     that is not valid JSON, and a string parsing to a `Json` value.
     `JSON.parse` is a left inverse of `JSON.stringify`, so saving is modeled
     as storing the `Json` value that `JSON.stringify` produces.
   * An ISO-8601 date-time string (produced by `Date.prototype.toJSON`) is
     modeled by the constructor `Json.isoDate t` carrying the timestamp `t`
     it denotes; `new Date(s)` on such a string returns exactly `t`.
     ISO strings are never equal to tag-name strings, which the dedicated
     constructor also captures.
   * Thrown exceptions (SyntaxError from JSON.parse, TypeError from iterating
     a non-array or calling .map on a non-array) are modeled with `Except`.
   * JavaScript `Array.prototype.sort` with a numeric comparator is a stable
     sort of a total preorder; a stable sort of a total preorder has a unique
     result, which the structurally recursive `stableSort` below computes.
     The comparator values include Infinity (modeled by `WithTop Int`); the
     only NaN the comparators can produce is Infinity - Infinity, which the
     ECMAScript sort treats as +0, i.e. as the tie that `WithTop Int` equality
     also yields.
   * JavaScript enum objects (`Status`, `Tags` in src/resources/tasks.ts) are
     numeric enums: the runtime object maps names to codes and codes back to
     names. Runtime task fields keep whatever value the code actually stores
     in them, so decoded tag entries are modeled by `TagVal` (a number, a
     string, or undefined), matching what `Tags[x]` can return. -/

namespace Todo

/-- Milliseconds in one day, the constant 1000*60*60*24 from the source. -/
def dayMs : Int := 86400000

/-- Math.ceil of the exact rational a / b for b > 0, as used on
(deadline - now) / day in useDeadlineStatus.ts and on the midnight-normalized
difference in the kanban date filters. -/
def ceilDiv (a b : Int) : Int := -(Int.ediv (-a) b)

/-- Day index of a timestamp: timestamps have the same `toDateString()` (same
calendar date) exactly when they have the same day index. -/
def epochDay (t : Int) : Int := Int.ediv t dayMs

/-- Midnight of the day containing t: models `d.setHours(0,0,0,0)`. -/
def startOfDay (t : Int) : Int := Int.ediv t dayMs * dayMs

/-- Runtime value of one entry of a task's `tags` array. The TypeScript type
says `Tags[]`, but at runtime the entries are whatever was assigned: numeric
enum codes (from the creation form), strings (the enum reverse lookup
`Tags[code]` returns the enum NAME), or undefined (failed lookup). -/
inductive TagVal where
  | num (k : Int)
  | str (s : String)
  | undef
deriving DecidableEq, Repr

/-- The Task record of src/resources/tasks.ts. `status` is the numeric enum
value (TODO=0, IN_PROGRESS=1, DONE=2, CANCELLED=3, ARCHIVED=4); the code
compares it against raw numbers (`task.status === 2` etc.), so it is modeled
as Int. `createdAt` and `updatedAt` are required fields; `deadline` and
`description` are optional; `tags` is optional (absent on freshly created
tasks with no tags, always an array on tasks returned by loadTasks). -/
structure Task where
  id : String
  title : String
  description : Option String
  status : Int
  createdAt : Int
  updatedAt : Int
  deadline : Option Int
  tags : Option (List TagVal)
deriving DecidableEq, Repr

/-- The non-null deadline statuses of useDeadlineStatus.ts; the classifier
returns `Option DeadlineStatus`, with `none` modeling null. -/
inductive DeadlineStatus where
  | overdue
  | today
  | soon
  | normal
deriving DecidableEq, Repr

/-- Sort field selector ('deadline' | 'createdAt' | 'updatedAt'). -/
inductive SortField where
  | deadline
  | createdAt
  | updatedAt
deriving DecidableEq, Repr

/-- Sort direction ('asc' | 'desc'). -/
inductive SortOrder where
  | asc
  | desc
deriving DecidableEq, Repr

/-- Date-bucket filter ('all' | 'overdue' | 'today' | 'soon' | 'future'). -/
inductive DateFilter where
  | all
  | overdue
  | today
  | soon
  | future
deriving DecidableEq, Repr

/-- getDeadlineStatus of src/composables/useDeadlineStatus.ts, lines 46-62,
with `now` passed explicitly (the source reads `new Date()` at call time):

    if (!task?.deadline) return null
    const isCompletedStatus = task.status === 2 || task.status === 3 || task.status === 4
    if (isCompletedStatus) return null
    const diffTime = deadline.getTime() - now.getTime()
    const diffDays = Math.ceil(diffTime / (1000 * 60 * 60 * 24))
    if (diffDays < 0) return 'overdue'
    if (diffDays === 0) return 'today'
    if (diffDays <= 3) return 'soon'
    return 'normal'

A Date object is always truthy, so `!task?.deadline` is true exactly when the
deadline field is absent. -/
def getDeadlineStatus (task : Task) (now : Int) : Option DeadlineStatus :=
  match task.deadline with
  | none => none
  | some deadline =>
    if task.status == 2 || task.status == 3 || task.status == 4 then none
    else
      let diffTime := deadline - now
      let diffDays := ceilDiv diffTime dayMs
      if diffDays < 0 then some DeadlineStatus.overdue
      else if diffDays == 0 then some DeadlineStatus.today
      else if diffDays <= 3 then some DeadlineStatus.soon
      else some DeadlineStatus.normal

/-- JSON values, plus a dedicated constructor for ISO-8601 date-time strings
(see the conventions at the top of the file). -/
inductive Json where
  | null
  | bool (b : Bool)
  | num (n : Int)
  | str (s : String)
  | isoDate (t : Int)
  | arr (items : List Json)
  | obj (fields : List (String × Json))

/-- Errors thrown while loading: SyntaxError from JSON.parse on an invalid
string, TypeError from iterating a non-array or mapping over a non-array. -/
inductive JsError where
  | parseError
  | typeError
deriving DecidableEq, Repr

/-- The state of the localStorage entry under the key `tasks`. -/
inductive Stored where
  | absent
  | emptyStr
  | invalid
  | json (j : Json)

/-- JavaScript property access `j[key]`: a lookup on an object, undefined
(`none`) on everything else. -/
def getField (j : Json) (key : String) : Option Json :=
  match j with
  | .obj fields => fields.lookup key
  | _ => none

/-- JavaScript truthiness of a parsed JSON value. -/
def truthy (j : Json) : Bool :=
  match j with
  | .null => false
  | .bool b => b
  | .num n => n != 0
  | .str s => s != ""
  | .isoDate _ => true
  | .arr _ => true
  | .obj _ => true

/-- Coercion of a raw field to String. The source keeps the raw value
unchecked (`id: task.id`); the claims below never evaluate this on a
non-string, so non-strings are collapsed to "". -/
def jsString (v : Option Json) : String :=
  match v with
  | some (Json.str s) => s
  | _ => ""

/-- Coercion of a raw field to a number; same modeling boundary as jsString. -/
def jsNumber (v : Option Json) : Int :=
  match v with
  | some (Json.num n) => n
  | _ => 0

/-- Value of `new Date(x).getTime()` for a raw required date field; the claims
below only evaluate this on ISO date strings. -/
def jsDateField (v : Option Json) : Int :=
  match v with
  | some (Json.isoDate t) => t
  | _ => 0

/-- Value of `new Date(x).getTime()` for a present raw value. -/
def jsDateOf (v : Json) : Int :=
  match v with
  | .isoDate t => t
  | _ => 0

/-- The lookup `Tags[tag as keyof typeof Tags]` in loadTasks (tasks.ts line
116). The runtime enum object `Tags` maps each name to its code AND each code
back to its name (TypeScript numeric-enum reverse mapping), and yields
undefined on any other key. So a stored numeric code 0..3 comes back as the
NAME string, and a stored name string comes back as the numeric code. -/
def tagsIndexLookup (v : Json) : TagVal :=
  match v with
  | .num 0 => TagVal.str ("WORK")
  | .num 1 => TagVal.str ("PERSONAL")
  | .num 2 => TagVal.str ("URGENT")
  | .num 3 => TagVal.str ("LOW_PRIORITY")
  | .str s =>
    if s == ("WORK") then TagVal.num 0
    else if s == ("PERSONAL") then TagVal.num 1
    else if s == ("URGENT") then TagVal.num 2
    else if s == ("LOW_PRIORITY") then TagVal.num 3
    else TagVal.undef
  | _ => TagVal.undef

/-- The non-tags fields of the per-item mapping in loadTasks (tasks.ts lines
108-117): raw id/title/description/status kept as stored, createdAt and
updatedAt through `new Date(...)`, deadline through the truthiness guard
`task.deadline ? new Date(task.deadline) : undefined`. -/
def mkDecoded (j : Json) (tags : Option (List TagVal)) : Task :=
  { id := jsString (getField j ("id"))
    title := jsString (getField j ("title"))
    description :=
      match getField j ("description") with
      | some (Json.str s) => some s
      | _ => none
    status := jsNumber (getField j ("status"))
    createdAt := jsDateField (getField j ("createdAt"))
    updatedAt := jsDateField (getField j ("updatedAt"))
    deadline :=
      match getField j ("deadline") with
      | some v => if truthy v then some (jsDateOf v) else none
      | none => none
    tags := tags }

/-- The tags field of the loadTasks per-item mapping:
`tags: task.tags ? task.tags.map((tag) => Tags[tag]) : []`.
A truthy non-array tags value would make `.map` throw a TypeError. -/
def decodeTags (j : Json) : Except JsError (Option (List TagVal)) :=
  match getField j ("tags") with
  | some v =>
    if truthy v then
      match v with
      | Json.arr l => Except.ok (some (l.map tagsIndexLookup))
      | _ => Except.error JsError.typeError
    else Except.ok (some [])
  | none => Except.ok (some [])

/-- One iteration of the loadTasks loop body: the item object built from the
raw fields (`mkDecoded`) with the tags mapping (`decodeTags`). -/
def decodeItem (j : Json) : Except JsError Task :=
  match decodeTags j with
  | Except.error e => Except.error e
  | Except.ok tg => Except.ok (mkDecoded j tg)

/-- The `for (const task of JSON.parse(tasks))` push loop of loadTasks:
items are decoded left to right and the first thrown error aborts the loop. -/
def decodeList (items : List Json) : Except JsError (List Task) :=
  match items with
  | [] => Except.ok []
  | j :: rest =>
    match decodeItem j with
    | Except.error e => Except.error e
    | Except.ok t =>
      match decodeList rest with
      | Except.error e => Except.error e
      | Except.ok ts => Except.ok (t :: ts)

/-- loadTasks of src/resources/tasks.ts, lines 103-123. An absent key and a
stored empty string are both falsy in `if (tasks)` and yield []. A non-empty
string that is not valid JSON makes JSON.parse throw a SyntaxError. A parse
result that is not an array makes the for..of throw a TypeError. -/
def loadTasks (st : Stored) : Except JsError (List Task) :=
  match st with
  | Stored.absent => Except.ok []
  | Stored.emptyStr => Except.ok []
  | Stored.invalid => Except.error JsError.parseError
  | Stored.json j =>
    match j with
    | Json.arr items => decodeList items
    | _ => Except.error JsError.typeError

/-- JSON.stringify of one tags entry (undefined inside an array serializes
as null). -/
def stringifyTagVal (v : TagVal) : Json :=
  match v with
  | TagVal.num k => Json.num k
  | TagVal.str s => Json.str s
  | TagVal.undef => Json.null

/-- JSON.stringify of one task object: keys in property-creation order,
fields holding undefined omitted, Date fields serialized by toJSON to
ISO-8601 strings. -/
def stringifyTask (t : Task) : Json :=
  Json.obj
    ([(("id"), Json.str t.id), (("title"), Json.str t.title)]
      ++ (match t.description with
          | some d => [(("description"), Json.str d)]
          | none => [])
      ++ [(("status"), Json.num t.status),
          (("createdAt"), Json.isoDate t.createdAt),
          (("updatedAt"), Json.isoDate t.updatedAt)]
      ++ (match t.deadline with
          | some d => [(("deadline"), Json.isoDate d)]
          | none => [])
      ++ (match t.tags with
          | some l => [(("tags"), Json.arr (l.map stringifyTagVal))]
          | none => []))

/-- saveAllTasks of src/resources/tasks.ts, lines 251-253:
`localStorage.setItem('tasks', JSON.stringify(tasks))`. The resulting stored
state is the serialized array. -/
def saveAllTasks (tasks : List Task) : Stored :=
  Stored.json (Json.arr (tasks.map stringifyTask))

/-- addTask of src/resources/tasks.ts, lines 285-289, with the storage state
threaded explicitly: load, push, save. If loadTasks throws, the exception
propagates before saveAllTasks runs, so the stored state is unchanged. -/
def addTask (st : Stored) (task : Task) : Except JsError Unit × Stored :=
  match loadTasks st with
  | Except.error e => (Except.error e, st)
  | Except.ok tasks => (Except.ok (), saveAllTasks (tasks ++ [task]))

/-- Calendar-date equality of two timestamps (same year, month and day,
ignoring time of day), written from the specification's words: under the
model's fixed time zone this is equality of epoch-day indices. -/
def sameCalendarDate (d now : Int) : Bool :=
  epochDay d == epochDay now

/-- loadTodayTasks of src/resources/tasks.ts, lines 144-153, with `now`
passed explicitly: `today` is normalized to midnight by setHours(0,0,0,0)
and each task with a deadline is kept when the deadline's toDateString()
equals today's toDateString() (equality of day indices, see `epochDay`). -/
def loadTodayTasks (st : Stored) (now : Int) : Except JsError (List Task) :=
  match loadTasks st with
  | Except.error e => Except.error e
  | Except.ok allTasks =>
    let today := startOfDay now
    Except.ok (allTasks.filter fun task =>
      match task.deadline with
      | some d => epochDay d == epochDay today
      | none => false)

/-- A stable insertion sort (structurally recursive, hence executable in the
kernel). On a tie (`le x y` and `le y x` both true) the earlier element stays
first, so for a total preorder `le` this computes the unique stable sort —
the result ECMAScript Array.prototype.sort is specified to produce. -/
def stableInsert (le : α → α → Bool) (x : α) : List α → List α
  | [] => [x]
  | y :: ys => if le x y then x :: y :: ys else y :: stableInsert le x ys

/-- See `stableInsert`. -/
def stableSort (le : α → α → Bool) : List α → List α
  | [] => []
  | x :: xs => stableInsert le x (stableSort le xs)

/-- The comparator `(a, b) => b.createdAt.getTime() - a.createdAt.getTime()`
of loadTasksForHome (tasks.ts line 223), as the total preorder it induces:
a sorts no later than b when a's creation time is no smaller. -/
def createdAtDescLE (a b : Task) : Bool :=
  decide (b.createdAt ≤ a.createdAt)

/-- The filter argument of loadTasksForHome. -/
structure HomeFilter where
  searchTerm : Option String
  status : Option Int

/-- JavaScript `s.includes(q)`: q occurs as a contiguous substring of s. -/
def jsIncludes (s q : String) : Bool :=
  q == "" || (s.splitOn q).length >= 2

/-- The filter predicate of loadTasksForHome (tasks.ts lines 219-222):
case-sensitive title substring match when a search term is given, exact
status match when a status is given. -/
def homePred (filter : HomeFilter) (task : Task) : Bool :=
  (match filter.searchTerm with
   | some q => jsIncludes task.title q
   | none => true)
  && (match filter.status with
      | some s => task.status == s
      | none => true)

/-- loadTasksForHome of src/resources/tasks.ts, lines 217-224. The source
declares parameters (filter, sortBy = 'deadline') and the Home view calls it
as loadTasksForHome(filter, sortBy, sortOrder); the extra argument is ignored
at runtime, so both sort parameters appear here and are (exactly as in the
source) not used: the body always sorts by createdAt descending. -/
def loadTasksForHome (st : Stored) (filter : HomeFilter)
    (sortBy : SortField) (sortOrder : SortOrder) : Except JsError (List Task) :=
  match loadTasks st with
  | Except.error e => Except.error e
  | Except.ok allTasks =>
    Except.ok (stableSort createdAtDescLE (allTasks.filter (homePred filter)))

/-- The raw property read `(task as any)[sortBy.value] as Date | undefined`
in getTimeValue (AllTasks.vue lines 25-29, DayTasks.vue lines 34-38):
createdAt and updatedAt are required fields and always present; only
deadline can be undefined. -/
def fieldVal (task : Task) : SortField → Option Int
  | SortField.deadline => task.deadline
  | SortField.createdAt => some task.createdAt
  | SortField.updatedAt => some task.updatedAt

/-- getTimeValue of AllTasks.vue lines 25-29 (identical in DayTasks.vue):

    const value = (task as any)[sortBy.value] as Date | undefined
    if (!value) return sortBy.value === 'deadline' ? Infinity : 0
    return value.getTime()

A Date object is always truthy, so the `!value` branch fires exactly when
the field is undefined. Infinity is the top element of `WithTop Int`. -/
def getTimeValue (task : Task) (sortBy : SortField) : WithTop Int :=
  match fieldVal task sortBy with
  | none =>
    match sortBy with
    | SortField.deadline => ⊤
    | _ => ((0 : Int) : WithTop Int)
  | some v => (v : WithTop Int)

/-- The comparator of the sort block in AllTasks.vue lines 45-50 and
DayTasks.vue lines 40-45: diff = ta - tb, negated for descending order,
as the total preorder it induces on tasks. -/
def taskLE (sortBy : SortField) (ord : SortOrder) (a b : Task) : Bool :=
  match ord with
  | SortOrder.asc => decide (getTimeValue a sortBy ≤ getTimeValue b sortBy)
  | SortOrder.desc => decide (getTimeValue b sortBy ≤ getTimeValue a sortBy)

/-- The sort applied by AllTasks.vue / DayTasks.vue after filtering. -/
def sortTasks (tasks : List Task) (sortBy : SortField) (ord : SortOrder) : List Task :=
  stableSort (taskLE sortBy ord) tasks

/-- The per-task predicate of the kanban date-bucket filter (Home.vue
kanbanTasks, lines 45-54; identical in DayTasks.vue): tasks without a
deadline are dropped; otherwise the deadline is normalized to midnight and
compared with midnight of now via a whole-day ceiling difference. `now0` is
the already-normalized `now` of the enclosing computed property. -/
def kanbanPred (df : DateFilter) (now0 : Int) (t : Task) : Bool :=
  match t.deadline with
  | none => false
  | some d =>
    let dd := startOfDay d
    let diff := ceilDiv (dd - now0) dayMs
    match df with
    | DateFilter.overdue => decide (diff < 0)
    | DateFilter.today => diff == 0
    | DateFilter.soon => decide (0 < diff) && decide (diff <= 3)
    | DateFilter.future => decide (3 < diff)
    | DateFilter.all => true

/-- The date-bucket filter of the kanban view (Home.vue kanbanTasks, lines
40-55) applied to the full collection `all`, with `now` passed explicitly:
bucket 'all' keeps everything, otherwise `now` is normalized to midnight
and the per-task predicate is applied. -/
def kanbanTasks (all : List Task) (df : DateFilter) (now : Int) : List Task :=
  match df with
  | DateFilter.all => all
  | _ => all.filter (kanbanPred df (startOfDay now))

theorem mem_stableInsert (le : α → α → Bool) (x : α) (l : List α) (z : α) :
    z ∈ stableInsert le x l ↔ z = x ∨ z ∈ l := by
  induction l with
  | nil => simp [stableInsert]
  | cons y ys ih =>
    by_cases h : le x y
    · simp [stableInsert, h]
    · simp [stableInsert, h, ih]
      tauto

theorem pairwise_stableInsert (le : α → α → Bool)
    (htrans : ∀ a b c, le a b = true → le b c = true → le a c = true)
    (htotal : ∀ a b, (le a b || le b a) = true)
    (x : α) (l : List α) (h : List.Pairwise (fun a b => le a b = true) l) :
    List.Pairwise (fun a b => le a b = true) (stableInsert le x l) := by
  induction l with
  | nil => simp [stableInsert]
  | cons y ys ih =>
    rcases List.pairwise_cons.mp h with ⟨hy, hys⟩
    by_cases hxy : le x y = true
    · rw [stableInsert, if_pos hxy]
      refine List.pairwise_cons.mpr ⟨?_, h⟩
      intro z hz
      rcases List.mem_cons.mp hz with rfl | hz
      · exact hxy
      · exact htrans x y z hxy (hy z hz)
    · rw [stableInsert, if_neg hxy]
      refine List.pairwise_cons.mpr ⟨?_, ih hys⟩
      intro z hz
      rcases (mem_stableInsert le x ys z).mp hz with hzx | hz
      · rw [hzx]
        have h2 := htotal x y
        simp [hxy] at h2
        exact h2
      · exact hy z hz

theorem pairwise_stableSort (le : α → α → Bool)
    (htrans : ∀ a b c, le a b = true → le b c = true → le a c = true)
    (htotal : ∀ a b, (le a b || le b a) = true)
    (l : List α) :
    List.Pairwise (fun a b => le a b = true) (stableSort le l) := by
  induction l with
  | nil => simp [stableSort]
  | cons x xs ih => exact pairwise_stableInsert le htrans htotal x (stableSort le xs) ih

theorem epochDay_startOfDay (t : Int) : epochDay (startOfDay t) = epochDay t := by
  unfold epochDay startOfDay
  exact Int.mul_ediv_cancel _ (by norm_num [dayMs])

theorem taskLE_trans (f : SortField) (o : SortOrder) :
    ∀ a b c, taskLE f o a b = true → taskLE f o b c = true → taskLE f o a c = true := by
  intro a b c hab hbc
  cases o with
  | asc =>
    simp only [taskLE, decide_eq_true_eq] at *
    exact le_trans hab hbc
  | desc =>
    simp only [taskLE, decide_eq_true_eq] at *
    exact le_trans hbc hab

theorem taskLE_total (f : SortField) (o : SortOrder) :
    ∀ a b, (taskLE f o a b || taskLE f o b a) = true := by
  cases o <;> intro a b <;>
    simp only [taskLE, Bool.or_eq_true, decide_eq_true_eq] <;> exact le_total _ _

theorem createdAtDescLE_trans :
    ∀ a b c : Task, createdAtDescLE a b = true → createdAtDescLE b c = true →
      createdAtDescLE a c = true := by
  intro a b c hab hbc
  simp only [createdAtDescLE, decide_eq_true_eq] at *
  omega

theorem createdAtDescLE_total :
    ∀ a b : Task, (createdAtDescLE a b || createdAtDescLE b a) = true := by
  intro a b
  simp only [createdAtDescLE, Bool.or_eq_true, decide_eq_true_eq]
  omega

theorem decodeTags_isSome (j : Json) (tg : Option (List TagVal))
    (h : decodeTags j = Except.ok tg) : tg.isSome = true := by
  unfold decodeTags at h
  split at h
  · split at h
    · split at h
      · cases h
        rfl
      · cases h
    · cases h
      rfl
  · cases h
    rfl

theorem decodeItem_tags_isSome (j : Json) (t : Task) (h : decodeItem j = Except.ok t) :
    t.tags.isSome = true := by
  unfold decodeItem at h
  rcases hg : decodeTags j with e | tg <;> rw [hg] at h
  · cases h
  · cases h
    exact decodeTags_isSome j tg hg

theorem decodeList_tags_isSome (items : List Json) (ts : List Task)
    (h : decodeList items = Except.ok ts) : ∀ t ∈ ts, t.tags.isSome = true := by
  induction items generalizing ts with
  | nil =>
    cases h
    intro t ht
    cases ht
  | cons j rest ih =>
    unfold decodeList at h
    rcases hj : decodeItem j with e | t0 <;> rw [hj] at h
    · cases h
    · rcases hr : decodeList rest with e | ts0 <;> rw [hr] at h
      · cases h
      · cases h
        intro t ht
        rcases List.mem_cons.mp ht with rfl | ht
        · exact decodeItem_tags_isSome j t hj
        · exact ih ts0 hr t ht

theorem decodeItem_eq (j : Json) (tg : Option (List TagVal))
    (hg : decodeTags j = Except.ok tg) :
    decodeItem j = Except.ok (mkDecoded j tg) := by
  unfold decodeItem
  rw [hg]

/- Concrete fixtures used by the claim theorems below. -/

/-- The moment "now" of the C1 scenario: some time during epoch day 2. -/
def c1now : Int := dayMs * 2 + 5000

/-- C1 scenario task 1: status TODO, deadline yesterday (epoch day 1). -/
def c1t1 : Task :=
  { id := "1", title := "Fix bug", description := none, status := 0,
    createdAt := 0, updatedAt := 0, deadline := some (dayMs + 1000), tags := some [] }

/-- C1 scenario task 2: status DONE, deadline yesterday (epoch day 1). -/
def c1t2 : Task :=
  { id := "2", title := "Write docs", description := none, status := 2,
    createdAt := 0, updatedAt := 0, deadline := some (dayMs + 1000), tags := some [] }

/-- A task whose tags array holds the numeric code of WORK, as created by the
task form and as stored on disk. -/
def c2Task : Task :=
  { id := "1", title := "t", description := none, status := 0,
    createdAt := 0, updatedAt := 0, deadline := none, tags := some [TagVal.num 0] }

/-- What loadTasks actually returns after c2Task is saved: the tag code came
back as the enum NAME string. -/
def c2Reloaded : Task :=
  { id := "1", title := "t", description := none, status := 0,
    createdAt := 0, updatedAt := 0, deadline := none, tags := some [TagVal.str ("WORK")] }

/-- The moment "now" of the C3 boundary check. -/
def c3now : Int := dayMs * 10

/-- An active task whose deadline is exactly 1 second before c3now. -/
def c3Task : Task :=
  { id := "3", title := "one second past", description := none, status := 0,
    createdAt := 0, updatedAt := 0, deadline := some (dayMs * 10 - 1000), tags := some [] }

/-- An active task whose deadline is exactly 24h01m after c3now. -/
def c3wTask : Task :=
  { id := "3w", title := "soon task", description := none, status := 1,
    createdAt := 0, updatedAt := 0, deadline := some (c3now + 86460000), tags := some [] }

/-- Task A of the C4 sort example: no deadline. -/
def c4TaskA : Task :=
  { id := "A", title := "no deadline", description := none, status := 0,
    createdAt := 0, updatedAt := 0, deadline := none, tags := some [] }

/-- Task B of the C4 sort example: deadline tomorrow. -/
def c4TaskB : Task :=
  { id := "B", title := "deadline tomorrow", description := none, status := 0,
    createdAt := 0, updatedAt := 0, deadline := some dayMs, tags := some [] }

/-- C5 fixture: created first (createdAt 0), earlier deadline (50). -/
def c5TaskA : Task :=
  { id := "A", title := "first created", description := none, status := 0,
    createdAt := 0, updatedAt := 0, deadline := some 50, tags := some [] }

/-- C5 fixture: created second (createdAt 1000), later deadline (100). -/
def c5TaskB : Task :=
  { id := "B", title := "second created", description := none, status := 0,
    createdAt := 1000, updatedAt := 1000, deadline := some 100, tags := some [] }

/-- The stored collection holding the two C5 fixture tasks. -/
def c5Store : Stored := saveAllTasks [c5TaskA, c5TaskB]

/-- The empty Home filter (no search term, no status). -/
def c5Filter : HomeFilter := { searchTerm := none, status := none }

/-- A completed (DONE) task with a deadline, for the C6 witness. -/
def c6Task : Task :=
  { id := "6", title := "done task", description := none, status := 2,
    createdAt := 0, updatedAt := 0, deadline := some 123456, tags := some [] }

/-- A task whose deadline (ms 5000) falls on epoch day 0, for the C8 witness
together with now = 10000 (also epoch day 0). -/
def c8Task : Task :=
  { id := "8", title := "due today", description := none, status := 0,
    createdAt := 0, updatedAt := 0, deadline := some 5000, tags := some [] }

/-- A fresh task appended by the C9 witness. -/
def c9Task : Task :=
  { id := "9", title := "new task", description := none, status := 0,
    createdAt := 0, updatedAt := 0, deadline := none, tags := none }

/-- The specification's due-today predicate: the task has a deadline and its
calendar date equals today's (now's) calendar date. -/
def dueTodayPred (now : Int) (t : Task) : Bool :=
  match t.deadline with
  | some d => sameCalendarDate d now
  | none => false

/-- C1 counterexample: on the scenario collection (task 1 TODO with deadline
yesterday, task 2 DONE with deadline yesterday) the kanban date-bucket filter
for bucket 'overdue' returns BOTH tasks, not only task 1: the filter does not
consult status and does not use the status-gated deadline classifier. -/
theorem c1_kanban_overdue_counterexample :
    kanbanTasks [c1t1, c1t2] DateFilter.overdue c1now = [c1t1, c1t2] ∧
    kanbanTasks [c1t1, c1t2] DateFilter.overdue c1now ≠ [c1t1] := by
  exact ⟨by decide, by decide⟩

/-- C1 amended: the kanban date-bucket filter keeps every task whose deadline
falls in the bucket regardless of status — on the scenario it returns both
task 1 and task 2 — and its per-task predicate depends only on the deadline
field: two tasks with equal deadlines are treated identically whatever their
statuses (bucket membership is a midnight-normalized day difference, not the
status-gated classifier). -/
theorem c1_kanban_overdue_amended :
    kanbanTasks [c1t1, c1t2] DateFilter.overdue c1now = [c1t1, c1t2] ∧
    (∀ (df : DateFilter) (now0 : Int) (t u : Task),
      t.deadline = u.deadline → kanbanPred df now0 t = kanbanPred df now0 u) := by
  refine ⟨by decide, ?_⟩
  intro df now0 t u h
  unfold kanbanPred
  rw [h]

/-- C1 amended, witness: the DONE task c1t2 is classified by the kanban
predicate exactly like the TODO task c1t1, their deadlines being equal. -/
theorem c1_kanban_overdue_amended_witness :
    kanbanPred DateFilter.overdue 0 c1t1 = kanbanPred DateFilter.overdue 0 c1t2 :=
  c1_kanban_overdue_amended.2 DateFilter.overdue 0 c1t1 c1t2 rfl

/-- C2 (code bug): saving a task whose tags array holds the numeric code 0
(WORK) and loading it back yields the tag NAME string "WORK" instead of the
code: saveAllTasks serializes tags as their numeric enum values while
loadTasks maps each stored entry through the enum object's index lookup,
which sends a code to its name. The round-trip therefore does not reproduce
the tags field. -/
theorem c2_roundtrip_tags_bug :
    loadTasks (saveAllTasks [c2Task]) = Except.ok [c2Reloaded] ∧
    c2Reloaded.tags ≠ c2Task.tags ∧
    c2Reloaded ≠ c2Task := by
  exact ⟨rfl, by decide, by decide⟩

/-- C3 counterexample: for an active task whose deadline is exactly 1 second
before now, the classifier returns 'today', not 'overdue' (Math.ceil of a
small negative fraction is 0). -/
theorem c3_boundary_counterexample :
    getDeadlineStatus c3Task c3now = some DeadlineStatus.today ∧
    getDeadlineStatus c3Task c3now ≠ some DeadlineStatus.overdue := by
  exact ⟨by decide, by decide⟩

/-- C3 amended: for every task with an active status, a deadline exactly
24 hours and 1 minute after now classifies as 'soon' (diffDays = 2), and a
deadline exactly 1 second before now classifies as 'today', not 'overdue'
('overdue' requires the deadline to be at least a full day in the past). -/
theorem c3_boundary_amended (t : Task) (now : Int)
    (hs : t.status ≠ 2 ∧ t.status ≠ 3 ∧ t.status ≠ 4) :
    (t.deadline = some (now + 86460000) → getDeadlineStatus t now = some DeadlineStatus.soon) ∧
    (t.deadline = some (now - 1000) → getDeadlineStatus t now = some DeadlineStatus.today) := by
  obtain ⟨h2, h3, h4⟩ := hs
  have hb : (t.status == 2 || t.status == 3 || t.status == 4) = false := by
    simp [h2, h3, h4]
  constructor
  · intro hd
    have he : now + 86460000 - now = (86460000 : Int) := by omega
    simp only [getDeadlineStatus, hd, hb, Bool.false_eq_true, if_false, he]
    decide
  · intro hd
    have he : now - 1000 - now = (-1000 : Int) := by omega
    simp only [getDeadlineStatus, hd, hb, Bool.false_eq_true, if_false, he]
    decide

/-- C3 amended, witness: at the concrete now c3now, the 24h01m-ahead task
classifies as 'soon' and the 1-second-past task classifies as 'today'. -/
theorem c3_boundary_amended_witness :
    getDeadlineStatus c3wTask c3now = some DeadlineStatus.soon ∧
    getDeadlineStatus c3Task c3now = some DeadlineStatus.today :=
  ⟨(c3_boundary_amended c3wTask c3now ⟨by decide, by decide, by decide⟩).1 rfl,
   (c3_boundary_amended c3Task c3now ⟨by decide, by decide, by decide⟩).2 rfl⟩

/-- C4: a task missing the chosen sort field's timestamp sorts as if its
value were infinitely far in the future: its sort key is the top element, in
ascending order every task placed after a missing-value task also has the top
key (missing-value tasks are last), in descending order every task placed
before one has the top key (they are first); and on the concrete example,
sorting A (no deadline) and B (deadline tomorrow) by deadline gives [B, A]
ascending and [A, B] descending. (In the source's Task type only `deadline`
can be missing; `createdAt` and `updatedAt` are required, so for those fields
the hypothesis is vacuous and the code's 0-fallback is unreachable.) -/
theorem c4_missing_sort_value :
    (∀ (t : Task) (f : SortField), fieldVal t f = none → getTimeValue t f = ⊤) ∧
    (∀ (f : SortField) (ts : List Task),
      List.Pairwise (fun a b : Task => getTimeValue a f = ⊤ → getTimeValue b f = ⊤)
        (sortTasks ts f SortOrder.asc)) ∧
    (∀ (f : SortField) (ts : List Task),
      List.Pairwise (fun a b : Task => getTimeValue b f = ⊤ → getTimeValue a f = ⊤)
        (sortTasks ts f SortOrder.desc)) ∧
    sortTasks [c4TaskA, c4TaskB] SortField.deadline SortOrder.asc = [c4TaskB, c4TaskA] ∧
    sortTasks [c4TaskA, c4TaskB] SortField.deadline SortOrder.desc = [c4TaskA, c4TaskB] := by
  refine ⟨?_, ?_, ?_, by decide, by decide⟩
  · intro t f h
    cases f with
    | deadline =>
      simp only [fieldVal] at h
      simp [getTimeValue, fieldVal, h]
    | createdAt => simp [fieldVal] at h
    | updatedAt => simp [fieldVal] at h
  · intro f ts
    unfold sortTasks
    have hp := pairwise_stableSort (taskLE f SortOrder.asc)
      (taskLE_trans f SortOrder.asc) (taskLE_total f SortOrder.asc) ts
    refine hp.imp ?_
    intro a b hab hta
    simp only [taskLE, decide_eq_true_eq] at hab
    rw [hta] at hab
    exact top_le_iff.mp hab
  · intro f ts
    unfold sortTasks
    have hp := pairwise_stableSort (taskLE f SortOrder.desc)
      (taskLE_trans f SortOrder.desc) (taskLE_total f SortOrder.desc) ts
    refine hp.imp ?_
    intro a b hab htb
    simp only [taskLE, decide_eq_true_eq] at hab
    rw [htb] at hab
    exact top_le_iff.mp hab

/-- C4 witness: the missing deadline of c4TaskA is given the top sort key. -/
theorem c4_missing_sort_value_witness :
    getTimeValue c4TaskA SortField.deadline = ⊤ :=
  c4_missing_sort_value.1 c4TaskA SortField.deadline rfl

/-- C5 counterexample: with sortField = deadline and sortOrder = ascending,
loadTasksForHome returns [B, A] — ordered by createdAt descending — although
the deadlines are A = 50, B = 100, so deadline-ascending order would be
[A, B]: the function ignores both sort parameters. -/
theorem c5_sort_field_counterexample :
    loadTasksForHome c5Store c5Filter SortField.deadline SortOrder.asc =
      Except.ok [c5TaskB, c5TaskA] ∧
    c5TaskA.deadline = some 50 ∧ c5TaskB.deadline = some 100 ∧
    ([c5TaskB, c5TaskA] : List Task) ≠ [c5TaskA, c5TaskB] := by
  exact ⟨rfl, rfl, rfl, by decide⟩

/-- C5 amended: loadTasksForHome ignores the sortField and sortOrder
arguments entirely (any two choices give the same result) and always returns
the filtered tasks ordered by createdAt descending (newest first), exactly as
its own documentation states. -/
theorem c5_sort_amended :
    (∀ (st : Stored) (fl : HomeFilter) (f1 f2 : SortField) (o1 o2 : SortOrder),
      loadTasksForHome st fl f1 o1 = loadTasksForHome st fl f2 o2) ∧
    (∀ (st : Stored) (fl : HomeFilter) (f : SortField) (o : SortOrder) (ts : List Task),
      loadTasksForHome st fl f o = Except.ok ts →
      List.Pairwise (fun a b : Task => b.createdAt ≤ a.createdAt) ts) := by
  constructor
  · intro st fl f1 f2 o1 o2
    rfl
  · intro st fl f o ts h
    unfold loadTasksForHome at h
    rcases hl : loadTasks st with e | all <;> rw [hl] at h
    · cases h
    · cases h
      have hp := pairwise_stableSort createdAtDescLE
        createdAtDescLE_trans createdAtDescLE_total (all.filter (homePred fl))
      refine hp.imp ?_
      intro a b hab
      exact of_decide_eq_true hab

/-- C5 amended, witness: the concrete result [B, A] is createdAt-descending
(1000 then 0). -/
theorem c5_sort_amended_witness :
    List.Pairwise (fun a b : Task => b.createdAt ≤ a.createdAt) [c5TaskB, c5TaskA] :=
  c5_sort_amended.2 c5Store c5Filter SortField.deadline SortOrder.asc [c5TaskB, c5TaskA] rfl

/-- C6: for every task whose status is DONE (2), CANCELLED (3) or ARCHIVED
(4), whatever its deadline, the deadline classifier returns none (null). -/
theorem c6_status_gating (t : Task) (now : Int)
    (h : t.status = 2 ∨ t.status = 3 ∨ t.status = 4) :
    getDeadlineStatus t now = none := by
  rcases hd : t.deadline with _ | d
  · simp [getDeadlineStatus, hd]
  · rcases h with h | h | h <;> simp [getDeadlineStatus, hd, h]

/-- C6 witness: a DONE task with a present (past) deadline classifies as
none. -/
theorem c6_status_gating_witness :
    getDeadlineStatus c6Task 999 = none :=
  c6_status_gating c6Task 999 (Or.inl rfl)

/-- C7 counterexample: a stored value that is present and valid JSON but NOT
of the expected shape — an array containing the bare number 5 — is decoded
by loadTasks without any error, refuting the claim that a decode error is
raised exactly when the stored value is present but not valid JSON of the
expected shape. -/
theorem c7_decode_counterexample :
    (loadTasks (Stored.json (Json.arr [Json.num 5]))).isOk = true := rfl

/-- C7 amended: loadTasks returns the empty list when no value (or an empty
string) is stored under the 'tasks' key, and propagates a parse error, with
no silent recovery, when the stored value is present but not valid JSON;
however a stored value that is valid JSON but not of the expected shape is
not necessarily rejected: an array containing a bare number is best-effort
decoded without error. -/
theorem c7_decode_amended :
    loadTasks Stored.absent = Except.ok [] ∧
    loadTasks Stored.emptyStr = Except.ok [] ∧
    loadTasks Stored.invalid = Except.error JsError.parseError ∧
    (loadTasks (Stored.json (Json.arr [Json.num 5]))).isOk = true :=
  ⟨rfl, rfl, rfl, rfl⟩

/-- C8: loadTodayTasks equals filtering the full loaded collection to exactly
those tasks that have a deadline whose calendar date (ignoring time of day)
equals today's (now's) calendar date — the midnight normalization the source
applies to `today` does not change its calendar date. -/
theorem c8_load_today (st : Stored) (now : Int) (ts : List Task)
    (h : loadTasks st = Except.ok ts) :
    loadTodayTasks st now = Except.ok (ts.filter (dueTodayPred now)) := by
  have hfun : (fun task : Task =>
      match task.deadline with
      | some d => epochDay d == epochDay (startOfDay now)
      | none => false) = dueTodayPred now := by
    funext task
    unfold dueTodayPred sameCalendarDate
    cases task.deadline <;> simp [epochDay_startOfDay]
  unfold loadTodayTasks
  rw [h]
  dsimp only
  rw [hfun]

/-- C8 witness: with one stored task whose deadline (ms 5000) falls on the
same epoch day as now = 10000, loadTodayTasks returns the filter result. -/
theorem c8_load_today_witness :
    loadTodayTasks (saveAllTasks [c8Task]) 10000 =
      Except.ok ([c8Task].filter (dueTodayPred 10000)) :=
  c8_load_today (saveAllTasks [c8Task]) 10000 [c8Task] rfl

/-- C9: addTask is atomic with respect to decode failure: when loadTasks
throws, the error propagates before any write and the stored value is
unchanged; when loadTasks succeeds, the write stores exactly the loaded list
plus the new task. -/
theorem c9_add_task_atomic :
    (∀ (st : Stored) (t : Task) (e : JsError),
      loadTasks st = Except.error e → addTask st t = (Except.error e, st)) ∧
    (∀ (st : Stored) (t : Task) (ts : List Task),
      loadTasks st = Except.ok ts →
      addTask st t = (Except.ok (), saveAllTasks (ts ++ [t]))) := by
  constructor
  · intro st t e h
    unfold addTask
    rw [h]
  · intro st t ts h
    unfold addTask
    rw [h]

/-- C9 witness: on a corrupt store addTask returns the parse error and leaves
the store unchanged; on an empty store it writes exactly the singleton. -/
theorem c9_add_task_atomic_witness :
    addTask Stored.invalid c9Task = (Except.error JsError.parseError, Stored.invalid) ∧
    addTask Stored.absent c9Task = (Except.ok (), saveAllTasks ([] ++ [c9Task])) :=
  ⟨c9_add_task_atomic.1 Stored.invalid c9Task JsError.parseError rfl,
   c9_add_task_atomic.2 Stored.absent c9Task [] rfl⟩

/-- C10: every task returned by loadTasks has a defined tags array; a stored
entry with no tags field decodes with the empty tags array; a stored tags
array is mapped element-wise through the Tags enum's index lookup, which in
particular sends the stored code 0 to the name string "WORK" rather than
keeping the raw value. -/
theorem c10_tags_always_defined :
    (∀ (st : Stored) (ts : List Task), loadTasks st = Except.ok ts →
      ∀ t ∈ ts, t.tags.isSome = true) ∧
    (∀ (j : Json) (t : Task), getField j ("tags") = none →
      decodeItem j = Except.ok t → t.tags = some []) ∧
    (∀ (j : Json) (l : List Json) (t : Task), getField j ("tags") = some (Json.arr l) →
      decodeItem j = Except.ok t → t.tags = some (l.map tagsIndexLookup)) ∧
    tagsIndexLookup (Json.num 0) = TagVal.str ("WORK") := by
  refine ⟨?_, ?_, ?_, rfl⟩
  · intro st ts h t ht
    cases st with
    | absent =>
      simp only [loadTasks] at h
      injection h with h2
      subst h2
      cases ht
    | emptyStr =>
      simp only [loadTasks] at h
      injection h with h2
      subst h2
      cases ht
    | invalid =>
      simp only [loadTasks] at h
      exact Except.noConfusion h
    | json j =>
      cases j <;> simp only [loadTasks] at h <;>
        first
        | exact decodeList_tags_isSome _ ts h t ht
        | exact Except.noConfusion h
  · intro j t hf h
    have hg : decodeTags j = Except.ok (some []) := by
      unfold decodeTags
      rw [hf]
    rw [decodeItem_eq j (some []) hg] at h
    injection h with h2
    rw [← h2]
    rfl
  · intro j l t hf h
    have hg : decodeTags j = Except.ok (some (l.map tagsIndexLookup)) := by
      unfold decodeTags
      rw [hf]
      rfl
    rw [decodeItem_eq j (some (l.map tagsIndexLookup)) hg] at h
    injection h with h2
    rw [← h2]
    rfl

/-- C10 witness: the task reloaded from a store holding c8Task has a defined
tags array. -/
theorem c10_tags_always_defined_witness :
    c8Task.tags.isSome = true :=
  c10_tags_always_defined.1 (saveAllTasks [c8Task]) [c8Task] rfl c8Task (by simp)

end Todo
